import Mathlib

/-!
Verification of the Trakt client (`pkg/client/trakt.go`) of imdb-trakt-sync.

The Go source is shallowly embedded: HTTP transport is an oracle
`env : Nat → AttemptResult` giving the outcome of each attempt of a request,
JSON (un)marshalling is modelled by typed payload constructors (a body either
carries the decodable value or is `malformed`), and side effects (requests
sent, sleeps) are collected in an explicit event trace.  The `entities`
package is not part of the given source tree, so its types (`TraktItem`,
`TraktList`, ...) are modelled from the spec's data model (tagged union over
movie/show/episode, lists with slug identifiers).  The concurrent fan-in of
`ListsGet` is nondeterministic — Go's `select` picks uniformly among ready
cases — so it is modelled as a reachability relation over scheduler draws
(`ListsGetCanReturn`): the model exhibits outcomes the program can produce,
including runs where the closed done channel wins the `select` over data
still buffered in the list or error channels.
-/

namespace TraktClient

/-- Go `strconv.Atoi`: optional sign followed by one or more decimal digits;
anything else (including the empty string) is a parse error.  Integer range
overflow is not modelled. -/
def goAtoi (s : String) : Option Int :=
  let cs := s.toList
  match cs with
  | [] => none
  | c :: rest =>
    let signed : Bool × List Char :=
      if c = '-' then (true, rest) else if c = '+' then (false, rest) else (false, cs)
    if signed.2 = [] then none
    else if signed.2.all (fun d => '0' ≤ d ∧ d ≤ '9') then
      let n : Nat := signed.2.foldl (fun acc d => acc * 10 + (d.toNat - 48)) 0
      some (if signed.1 then -(n : Int) else (n : Int))
    else none

/-- Modelled from the spec: external identifiers carried by one variant of an
`Item` (the `entities` package is outside the given source). -/
structure TraktItemSpec where
  imdbId : String
  deriving DecidableEq, Repr

/-- Modelled from the spec: `Item` is a "tagged union over {Movie, Show,
Episode}, each carrying external identifiers"; the Go `Type` string tag may
also hold an unrecognized value, which `mapTraktItemsToTraktBody` skips. -/
inductive TraktItem
  | movie (m : TraktItemSpec)
  | show (s : TraktItemSpec)
  | episode (e : TraktItemSpec)
  | unknown (tag : String)
  deriving DecidableEq, Repr

/-- Modelled from the spec: list identifiers (slug). -/
structure TraktIds where
  Slug : String
  deriving DecidableEq, Repr

/-- Modelled from the spec: `List = {identifier (slug), isWatchlist, items}`. -/
structure TraktList where
  Ids : TraktIds
  IsWatchlist : Bool
  ListItems : List TraktItem
  deriving DecidableEq, Repr

/-- Modelled from the spec: `SyncResult` receipt of counts per call. -/
structure TraktResponse where
  added : Nat
  deleted : Nat
  existing : Nat
  notFound : Nat
  deriving DecidableEq, Repr

/-- The body of an outgoing add/remove request: the three per-kind entry
collections built by `mapTraktItemsToTraktBody`. -/
structure TraktListBody where
  Movies : List TraktItemSpec
  Shows : List TraktItemSpec
  Episodes : List TraktItemSpec
  deriving DecidableEq, Repr

/-- `mapTraktItemsToTraktBody` (trakt.go lines 734-749): switch on the item's
type tag; movie/show/episode are appended to the matching collection, any
other tag falls to `default: continue` and is dropped. -/
def mapTraktItemsToTraktBody : List TraktItem → TraktListBody
  | [] => { Movies := [], Shows := [], Episodes := [] }
  | item :: rest =>
    let res := mapTraktItemsToTraktBody rest
    match item with
    | .movie m => { res with Movies := m :: res.Movies }
    | .show s => { res with Shows := s :: res.Shows }
    | .episode e => { res with Episodes := e :: res.Episodes }
    | .unknown _ => res

/-- Outgoing request bodies, by provenance in the source. -/
inductive ReqBody
  | noBody
  | form (encoded : String)
  | jsonList (b : TraktListBody)
  | jsonListAdd (name : String)
  | jsonRaw (s : String)
  deriving DecidableEq, Repr

/-- Response payloads: a typed value models a JSON document that decodes into
that shape; `malformed` models any document the decoder rejects. -/
inductive RespBody
  | empty
  | syncResult (r : TraktResponse)
  | listItems (items : List TraktItem)
  | lists (ls : List TraktList)
  | items (xs : List TraktItem)
  | malformed
  deriving DecidableEq, Repr

/-- The fields of `requestFields` handed to `doRequest`. -/
structure RequestFields where
  Method : String
  BasePath : String
  Endpoint : String
  Body : ReqBody
  Headers : List (String × String)
  deriving DecidableEq, Repr

/-- An HTTP response as observed by `doRequest`. -/
structure HttpResponse where
  StatusCode : Nat
  retryAfterHeader : String
  Body : RespBody
  deriving DecidableEq, Repr

/-- Outcome of one transport attempt (`tc.client.Do`). -/
inductive AttemptResult
  | transportError (msg : String)
  | response (r : HttpResponse)
  deriving DecidableEq, Repr

/-- Observable side effects of the request engine: a request handed to the
transport, and a sleep of the given number of seconds. -/
inductive Event
  | sent (req : RequestFields)
  | slept (seconds : Int)
  deriving DecidableEq, Repr

/-- Errors produced by the client, by provenance in the source:
`apiError` is the Go `*ApiError` struct {httpMethod, url, StatusCode,
details}; `transport` the wrapped `client.Do` error; `headerParse` the
`Retry-After` parse failure; `maxRetries` the post-loop error; `decode` a
JSON unmarshalling failure; `scrape` a scraping failure; `wrapped` a
`fmt.Errorf("...: %w", err)` wrapper. -/
inductive ClientError
  | transport (method url msg : String)
  | apiError (method url : String) (StatusCode : Nat) (details : String)
  | headerParse (header : String)
  | maxRetries (method url : String)
  | decode (context : String)
  | scrape (msg : String)
  | wrapped (context : String) (e : ClientError)
  deriving DecidableEq, Repr

def traktHeaderKeyRetryAfter : String := "Retry-After"
def traktPathBaseAPI : String := "https://api.trakt.tv"
def traktPathHistory : String := "/sync/history"
def traktPathHistoryRemove : String := "/sync/history/remove"
def traktPathRatings : String := "/sync/ratings"
def traktPathRatingsRemove : String := "/sync/ratings/remove"
def traktPathWatchlist : String := "/sync/watchlist"
def traktPathWatchlistRemove : String := "/sync/watchlist/remove"
def traktSyncModeAddOnly : String := "add-only"
def traktSyncModeDryRun : String := "dry-run"
def traktSyncModeFull : String := "full"

def accountLimitDetails : String :=
  "trakt account limit exceeded, more info here: https://github.com/trakt/api-help/discussions/350"

/-- The URL of a request, `requestFields.BasePath+requestFields.Endpoint`. -/
def RequestFields.url (req : RequestFields) : String :=
  req.BasePath ++ req.Endpoint

/-- The retry loop of `doRequest` (trakt.go lines 289-331).  `fuel` is the
number of loop iterations left (`5 - retries`), `attempt` the index into the
transport oracle.  Each iteration sends the same `req` (the request object is
built once, before the loop, with a replayable body). -/
def doRequestAux (req : RequestFields) (env : Nat → AttemptResult) :
    Nat → Nat → Except ClientError HttpResponse × List Event
  | 0, _ => (.error (.maxRetries req.Method req.url), [])
  | fuel + 1, attempt =>
    match env attempt with
    | .transportError msg =>
      (.error (.transport req.Method req.url msg), [.sent req])
    | .response r =>
      if r.StatusCode = 200 ∨ r.StatusCode = 201 ∨ r.StatusCode = 204 ∨ r.StatusCode = 404 then
        (.ok r, [.sent req])
      else if r.StatusCode = 420 then
        (.error (.apiError req.Method req.url r.StatusCode accountLimitDetails), [.sent req])
      else if r.StatusCode = 429 then
        match goAtoi r.retryAfterHeader with
        | none => (.error (.headerParse traktHeaderKeyRetryAfter), [.sent req])
        | some n =>
          let rest := doRequestAux req env fuel (attempt + 1)
          (rest.1, .sent req :: .slept n :: rest.2)
      else
        (.error (.apiError req.Method req.url r.StatusCode
          ("unexpected status code " ++ toString r.StatusCode)), [.sent req])

/-- `doRequest` (trakt.go lines 281-333): at most 5 attempts. -/
def doRequest (req : RequestFields) (env : Nat → AttemptResult) :
    Except ClientError HttpResponse × List Event :=
  doRequestAux req env 5 0

/-- Number of requests handed to the transport in a trace. -/
def sentCount (tr : List Event) : Nat :=
  (tr.filter fun e => match e with | .sent _ => true | .slept _ => false).length

/-- `TraktConfig` (trakt.go lines 66-74). -/
structure TraktConfig where
  accessToken : String
  ClientId : String
  ClientSecret : String
  Email : String
  Password : String
  username : String
  SyncMode : String
  deriving DecidableEq, Repr

/-- `defaultApiHeaders` (trakt.go lines 272-279). -/
def defaultApiHeaders (cfg : TraktConfig) : List (String × String) :=
  [("trakt-api-version", "2"),
   ("Content-Type", "application/json"),
   ("trakt-api-key", cfg.ClientId),
   ("Authorization", "Bearer " ++ cfg.accessToken)]

/-- `readTraktResponse` (trakt.go lines 795-802): JSON decode of a sync
receipt, failing on any other payload. -/
def readTraktResponse : RespBody → Except ClientError TraktResponse
  | .syncResult r => .ok r
  | _ => .error (.decode "failure unmarshalling trakt response")

/-- `readTraktListResponse` (trakt.go lines 787-793): decodes the list items
into the supplied list value. -/
def readTraktListResponse (body : RespBody) (list : TraktList) :
    Except ClientError TraktList :=
  match body with
  | .listItems xs => .ok { list with ListItems := xs }
  | _ => .error (.decode "failure unmarshalling trakt list")

/-- `readTraktItems` (trakt.go lines 778-785). -/
def readTraktItems : RespBody → Except ClientError (List TraktItem)
  | .items xs => .ok xs
  | _ => .error (.decode "failure unmarshalling trakt list")

/-- `readTraktLists` (trakt.go lines 769-776). -/
def readTraktLists : RespBody → Except ClientError (List TraktList)
  | .lists ls => .ok ls
  | _ => .error (.decode "failure unmarshalling trakt lists")

/-- `WatchlistGet` (trakt.go lines 335-353). -/
def WatchlistGet (cfg : TraktConfig) (env : Nat → AttemptResult) :
    Except ClientError TraktList × List Event :=
  match doRequest {
      Method := "GET", BasePath := traktPathBaseAPI,
      Endpoint := traktPathWatchlist, Body := .noBody,
      Headers := defaultApiHeaders cfg } env with
  | (.error e, tr) => (.error e, tr)
  | (.ok r, tr) =>
    let list : TraktList :=
      { Ids := { Slug := "watchlist" }, IsWatchlist := true, ListItems := [] }
    (readTraktListResponse r.Body list, tr)

/-- `WatchlistItemsAdd` (trakt.go lines 355-380): skipped in dry-run mode,
otherwise one POST of the mapped body. -/
def WatchlistItemsAdd (cfg : TraktConfig) (items : List TraktItem)
    (env : Nat → AttemptResult) : Except ClientError Unit × List Event :=
  if cfg.SyncMode = traktSyncModeDryRun then (.ok (), [])
  else
    match doRequest {
        Method := "POST", BasePath := traktPathBaseAPI,
        Endpoint := traktPathWatchlist,
        Body := .jsonList (mapTraktItemsToTraktBody items),
        Headers := defaultApiHeaders cfg } env with
    | (.error e, tr) => (.error e, tr)
    | (.ok r, tr) =>
      match readTraktResponse r.Body with
      | .error e => (.error e, tr)
      | .ok _ => (.ok (), tr)

/-- `WatchlistItemsRemove` (trakt.go lines 382-407): skipped in dry-run and
add-only modes, otherwise one POST of the mapped body. -/
def WatchlistItemsRemove (cfg : TraktConfig) (items : List TraktItem)
    (env : Nat → AttemptResult) : Except ClientError Unit × List Event :=
  if cfg.SyncMode = traktSyncModeDryRun ∨ cfg.SyncMode = traktSyncModeAddOnly then
    (.ok (), [])
  else
    match doRequest {
        Method := "POST", BasePath := traktPathBaseAPI,
        Endpoint := traktPathWatchlistRemove,
        Body := .jsonList (mapTraktItemsToTraktBody items),
        Headers := defaultApiHeaders cfg } env with
    | (.error e, tr) => (.error e, tr)
    | (.ok r, tr) =>
      match readTraktResponse r.Body with
      | .error e => (.error e, tr)
      | .ok _ => (.ok (), tr)

/-- The formatted endpoint `"/users/%s/lists/%s"`. -/
def traktPathUserListFmt (username listId : String) : String :=
  "/users/" ++ username ++ "/lists/" ++ listId

/-- The formatted endpoint `"/users/%s/lists/%s/items"`. -/
def traktPathUserListItemsFmt (username listId : String) : String :=
  "/users/" ++ username ++ "/lists/" ++ listId ++ "/items"

/-- The formatted endpoint `"/users/%s/lists/%s/items/remove"`. -/
def traktPathUserListItemsRemoveFmt (username listId : String) : String :=
  "/users/" ++ username ++ "/lists/" ++ listId ++ "/items/remove"

/-- `ListGet` (trakt.go lines 409-434): a 404 response (a success for
`doRequest`) is mapped to a typed `ApiError` carrying the requested
identifier. -/
def ListGet (cfg : TraktConfig) (listId : String) (env : Nat → AttemptResult) :
    Except ClientError TraktList × List Event :=
  let req : RequestFields :=
    { Method := "GET", BasePath := traktPathBaseAPI,
      Endpoint := traktPathUserListItemsFmt cfg.username listId,
      Body := .noBody, Headers := defaultApiHeaders cfg }
  match doRequest req env with
  | (.error e, tr) => (.error e, tr)
  | (.ok r, tr) =>
    if r.StatusCode = 404 then
      (.error (.apiError req.Method req.url r.StatusCode
        ("list with id " ++ listId ++ " could not be found")), tr)
    else
      let list : TraktList :=
        { Ids := { Slug := listId }, IsWatchlist := false, ListItems := [] }
      (readTraktListResponse r.Body list, tr)

/-- `ListItemsAdd` (trakt.go lines 436-461). -/
def ListItemsAdd (cfg : TraktConfig) (listId : String) (items : List TraktItem)
    (env : Nat → AttemptResult) : Except ClientError Unit × List Event :=
  if cfg.SyncMode = traktSyncModeDryRun then (.ok (), [])
  else
    match doRequest {
        Method := "POST", BasePath := traktPathBaseAPI,
        Endpoint := traktPathUserListItemsFmt cfg.username listId,
        Body := .jsonList (mapTraktItemsToTraktBody items),
        Headers := defaultApiHeaders cfg } env with
    | (.error e, tr) => (.error e, tr)
    | (.ok r, tr) =>
      match readTraktResponse r.Body with
      | .error e => (.error e, tr)
      | .ok _ => (.ok (), tr)

/-- `ListItemsRemove` (trakt.go lines 463-488). -/
def ListItemsRemove (cfg : TraktConfig) (listId : String) (items : List TraktItem)
    (env : Nat → AttemptResult) : Except ClientError Unit × List Event :=
  if cfg.SyncMode = traktSyncModeDryRun ∨ cfg.SyncMode = traktSyncModeAddOnly then
    (.ok (), [])
  else
    match doRequest {
        Method := "POST", BasePath := traktPathBaseAPI,
        Endpoint := traktPathUserListItemsRemoveFmt cfg.username listId,
        Body := .jsonList (mapTraktItemsToTraktBody items),
        Headers := defaultApiHeaders cfg } env with
    | (.error e, tr) => (.error e, tr)
    | (.ok r, tr) =>
      match readTraktResponse r.Body with
      | .error e => (.error e, tr)
      | .ok _ => (.ok (), tr)

/-- `ListsMetadataGet` (trakt.go lines 490-502). -/
def ListsMetadataGet (cfg : TraktConfig) (env : Nat → AttemptResult) :
    Except ClientError (List TraktList) × List Event :=
  match doRequest {
      Method := "GET", BasePath := traktPathBaseAPI,
      Endpoint := traktPathUserListFmt cfg.username "", Body := .noBody,
      Headers := defaultApiHeaders cfg } env with
  | (.error e, tr) => (.error e, tr)
  | (.ok r, tr) => (readTraktLists r.Body, tr)

/-- `ListAdd` (trakt.go lines 546-576): skipped in dry-run mode, otherwise one
POST with the fixed list template. -/
def ListAdd (cfg : TraktConfig) (listId listName : String)
    (env : Nat → AttemptResult) : Except ClientError Unit × List Event :=
  if cfg.SyncMode = traktSyncModeDryRun then (.ok (), [])
  else
    match doRequest {
        Method := "POST", BasePath := traktPathBaseAPI,
        Endpoint := traktPathUserListFmt cfg.username "",
        Body := .jsonListAdd listName,
        Headers := defaultApiHeaders cfg } env with
    | (.error e, tr) => (.error e, tr)
    | (.ok _, tr) => (.ok (), tr)

/-- `ListRemove` (trakt.go lines 578-596): skipped in dry-run and add-only
modes, otherwise one DELETE. -/
def ListRemove (cfg : TraktConfig) (listId : String)
    (env : Nat → AttemptResult) : Except ClientError Unit × List Event :=
  if cfg.SyncMode = traktSyncModeDryRun ∨ cfg.SyncMode = traktSyncModeAddOnly then
    (.ok (), [])
  else
    match doRequest {
        Method := "DELETE", BasePath := traktPathBaseAPI,
        Endpoint := traktPathUserListFmt cfg.username listId, Body := .noBody,
        Headers := defaultApiHeaders cfg } env with
    | (.error e, tr) => (.error e, tr)
    | (.ok _, tr) => (.ok (), tr)

/-- `RatingsGet` (trakt.go lines 598-610). -/
def RatingsGet (cfg : TraktConfig) (env : Nat → AttemptResult) :
    Except ClientError (List TraktItem) × List Event :=
  match doRequest {
      Method := "GET", BasePath := traktPathBaseAPI,
      Endpoint := traktPathRatings, Body := .noBody,
      Headers := defaultApiHeaders cfg } env with
  | (.error e, tr) => (.error e, tr)
  | (.ok r, tr) => (readTraktItems r.Body, tr)

/-- `RatingsAdd` (trakt.go lines 612-637). -/
def RatingsAdd (cfg : TraktConfig) (items : List TraktItem)
    (env : Nat → AttemptResult) : Except ClientError Unit × List Event :=
  if cfg.SyncMode = traktSyncModeDryRun then (.ok (), [])
  else
    match doRequest {
        Method := "POST", BasePath := traktPathBaseAPI,
        Endpoint := traktPathRatings,
        Body := .jsonList (mapTraktItemsToTraktBody items),
        Headers := defaultApiHeaders cfg } env with
    | (.error e, tr) => (.error e, tr)
    | (.ok r, tr) =>
      match readTraktResponse r.Body with
      | .error e => (.error e, tr)
      | .ok _ => (.ok (), tr)

/-- `RatingsRemove` (trakt.go lines 639-664). -/
def RatingsRemove (cfg : TraktConfig) (items : List TraktItem)
    (env : Nat → AttemptResult) : Except ClientError Unit × List Event :=
  if cfg.SyncMode = traktSyncModeDryRun ∨ cfg.SyncMode = traktSyncModeAddOnly then
    (.ok (), [])
  else
    match doRequest {
        Method := "POST", BasePath := traktPathBaseAPI,
        Endpoint := traktPathRatingsRemove,
        Body := .jsonList (mapTraktItemsToTraktBody items),
        Headers := defaultApiHeaders cfg } env with
    | (.error e, tr) => (.error e, tr)
    | (.ok r, tr) =>
      match readTraktResponse r.Body with
      | .error e => (.error e, tr)
      | .ok _ => (.ok (), tr)

/-- The formatted endpoint `"/sync/history/%s/%s?limit=%s"`. -/
def traktPathHistoryGetFmt (itemType itemId limit : String) : String :=
  "/sync/history/" ++ itemType ++ "/" ++ itemId ++ "?limit=" ++ limit

/-- `HistoryGet` (trakt.go lines 666-678). -/
def HistoryGet (cfg : TraktConfig) (itemType itemId : String)
    (env : Nat → AttemptResult) : Except ClientError (List TraktItem) × List Event :=
  match doRequest {
      Method := "GET", BasePath := traktPathBaseAPI,
      Endpoint := traktPathHistoryGetFmt (itemType ++ "s") itemId "1000",
      Body := .noBody, Headers := defaultApiHeaders cfg } env with
  | (.error e, tr) => (.error e, tr)
  | (.ok r, tr) => (readTraktItems r.Body, tr)

/-- `HistoryAdd` (trakt.go lines 680-705). -/
def HistoryAdd (cfg : TraktConfig) (items : List TraktItem)
    (env : Nat → AttemptResult) : Except ClientError Unit × List Event :=
  if cfg.SyncMode = traktSyncModeDryRun then (.ok (), [])
  else
    match doRequest {
        Method := "POST", BasePath := traktPathBaseAPI,
        Endpoint := traktPathHistory,
        Body := .jsonList (mapTraktItemsToTraktBody items),
        Headers := defaultApiHeaders cfg } env with
    | (.error e, tr) => (.error e, tr)
    | (.ok r, tr) =>
      match readTraktResponse r.Body with
      | .error e => (.error e, tr)
      | .ok _ => (.ok (), tr)

/-- `HistoryRemove` (trakt.go lines 707-732). -/
def HistoryRemove (cfg : TraktConfig) (items : List TraktItem)
    (env : Nat → AttemptResult) : Except ClientError Unit × List Event :=
  if cfg.SyncMode = traktSyncModeDryRun ∨ cfg.SyncMode = traktSyncModeAddOnly then
    (.ok (), [])
  else
    match doRequest {
        Method := "POST", BasePath := traktPathBaseAPI,
        Endpoint := traktPathHistoryRemove,
        Body := .jsonList (mapTraktItemsToTraktBody items),
        Headers := defaultApiHeaders cfg } env with
    | (.error e, tr) => (.error e, tr)
    | (.ok r, tr) =>
      match readTraktResponse r.Body with
      | .error e => (.error e, tr)
      | .ok _ => (.ok (), tr)

/-- The error-absorption test of `ListsGet` (trakt.go line 520):
`errors.As(err, &apiError) && apiError.StatusCode == http.StatusNotFound`. -/
def ClientError.isNotFoundApiError : ClientError → Bool
  | .apiError _ _ 404 _ => true
  | _ => false

/-- One scheduler draw of the `select` in `ListsGet` (trakt.go lines
534-543): which of the ready cases the uniformly random choice lands on. -/
inductive SelectChoice
  | recvList
  | recvErr
  | recvDone
  deriving DecidableEq, Repr

/-- The channel contents after every producer goroutine of `ListsGet`
(trakt.go lines 511-533) has run to completion: `outChan` holds one entry per
successful `ListGet` (its `Ids` overwritten with the requested identifier,
line 527), `errChan` the non-not-found errors wrapped at line 524; a
not-found `ApiError` is silently skipped (line 520).  `outChan` is buffered
to `len(ids)` and `errChan` to 1, so with at most one error no producer ever
blocks, and this state is reached on every schedule that runs the producers
to completion before the consumer's `select` loop; the delivery order is
taken to be the identifier order, one of the reachable orders. -/
def fanOutBuffers (cfg : TraktConfig) (envOf : TraktIds → Nat → AttemptResult) :
    List TraktIds → List TraktList × List ClientError
  | [] => ([], [])
  | id :: rest =>
    let buffers := fanOutBuffers cfg envOf rest
    match (ListGet cfg id.Slug (envOf id)).1 with
    | .ok list => ({ list with Ids := id } :: buffers.1, buffers.2)
    | .error e =>
      if e.isNotFoundApiError then buffers
      else (buffers.1,
        .wrapped "unexpected error while fetching trakt lists" e :: buffers.2)

/-- The consumer loop of `ListsGet` (trakt.go lines 534-543) once `doneChan`
has been closed (the wait group finished): each iteration the `select` picks
one of the ready cases — receiving a buffered list appends it, receiving the
buffered error returns `(nil, err)`, and the closed `doneChan` case returns
the lists collected so far.  A draw naming a case that is not ready, or an
exhausted draw list, determines no outcome (`none`). -/
def fanInSelect :
    List TraktList → List ClientError → List TraktList → List SelectChoice →
      Option (Except ClientError (List TraktList))
  | _, _, _, [] => none
  | outBuf, errBuf, lists, c :: cs =>
    match c with
    | .recvList =>
      match outBuf with
      | [] => none
      | l :: rest => fanInSelect rest errBuf (lists ++ [l]) cs
    | .recvErr =>
      match errBuf with
      | [] => none
      | e :: _ => some (.error e)
    | .recvDone => some (.ok lists)

/-- `ListsGet` (trakt.go lines 504-544) as a reachability relation: `res` is
an outcome the call can produce under some sequence of `select` draws, on the
schedule class where the producer goroutines complete before the consumer
loop runs (reachable, since the buffered channels keep the producers
unblocked).  Go's `select` picks uniformly at random among ready cases, so
every valid draw sequence occurs with positive probability. -/
def ListsGetCanReturn (cfg : TraktConfig) (envOf : TraktIds → Nat → AttemptResult)
    (ids : List TraktIds) (res : Except ClientError (List TraktList)) : Prop :=
  ∃ draws : List SelectChoice,
    fanInSelect (fanOutBuffers cfg envOf ids).1 (fanOutBuffers cfg envOf ids).2
      [] draws = some res

/-- Helper for `goSplit`: characters of the remaining input and the reversed
current segment. -/
def goSplitAux (sep : Char) : List Char → List Char → List String
  | [], acc => [String.mk acc.reverse]
  | c :: rest, acc =>
    if c = sep then String.mk acc.reverse :: goSplitAux sep rest []
    else goSplitAux sep rest (c :: acc)

/-- Go `strings.Split(s, sep)` for a one-character separator: the segments of
`s` around each occurrence of `sep` (the empty string yields `[""]`). -/
def goSplit (sep : Char) (s : String) : List String :=
  goSplitAux sep s.toList []

/-- The username-scraping logic of `ActivateAuthorize` (trakt.go lines
218-227), given the href attribute value scraped from `#desktop-user-avatar`
(`scrapeSelectionAttribute` lives outside the given source tree; its result is
taken as input).  On success the returned string is stored as
`tc.config.username`. -/
def activateAuthorizeUsername (value : String) : Except ClientError String :=
  let hrefPieces := goSplit '/' value
  if h : hrefPieces.length = 3 then
    .ok (hrefPieces.get ⟨2, by omega⟩)
  else
    .error (.scrape "failure scraping trakt username")

/-- A sample request used to instantiate universally quantified theorems. -/
def sampleReq : RequestFields :=
  { Method := "POST", BasePath := "https://api.trakt.tv",
    Endpoint := "/sync/watchlist", Body := .noBody, Headers := [] }

lemma sentCount_single (req : RequestFields) : sentCount [Event.sent req] = 1 := by
  simp [sentCount]

lemma doRequest_ok_of_success (env : Nat → AttemptResult) (r : HttpResponse)
    (h : env 0 = .response r)
    (hs : r.StatusCode = 200 ∨ r.StatusCode = 201 ∨ r.StatusCode = 204 ∨ r.StatusCode = 404) :
    ∀ req : RequestFields, doRequest req env = (.ok r, [.sent req]) := by
  intro req
  simp [doRequest, doRequestAux, h, hs]

lemma doRequestAux_no_404_apiError (req : RequestFields) (env : Nat → AttemptResult) :
    ∀ fuel attempt m u d,
      (doRequestAux req env fuel attempt).1 ≠ Except.error (ClientError.apiError m u 404 d) := by
  intro fuel
  induction fuel with
  | zero => intro attempt m u d; simp [doRequestAux]
  | succ f ih =>
    intro attempt m u d
    simp only [doRequestAux]
    cases henv : env attempt with
    | transportError msg => simp
    | response r =>
      by_cases h1 : r.StatusCode = 200 ∨ r.StatusCode = 201 ∨ r.StatusCode = 204 ∨ r.StatusCode = 404
      · simp [h1]
      · by_cases h2 : r.StatusCode = 420
        · simp [h1, h2, ClientError.apiError.injEq]
        · by_cases h3 : r.StatusCode = 429
          · cases hga : goAtoi r.retryAfterHeader with
            | none => simp [h1, h2, h3, hga]
            | some n => simpa [h1, h2, h3, hga] using ih (attempt + 1) m u d
          · have h404 : r.StatusCode ≠ 404 := by tauto
            have h200 : ¬(r.StatusCode = 200 ∨ r.StatusCode = 201 ∨ r.StatusCode = 204) := by
              tauto
            simp [h1, h2, h3, ClientError.apiError.injEq, h404, h200]

lemma doRequestAux_sent_all (req : RequestFields) (env : Nat → AttemptResult) :
    ∀ fuel attempt r',
      Event.sent r' ∈ (doRequestAux req env fuel attempt).2 → r' = req := by
  intro fuel
  induction fuel with
  | zero => intro attempt r' hm; simp [doRequestAux] at hm
  | succ f ih =>
    intro attempt r' hm
    simp only [doRequestAux] at hm
    cases henv : env attempt with
    | transportError msg => rw [henv] at hm; simp at hm; exact hm
    | response r =>
      rw [henv] at hm
      by_cases h1 : r.StatusCode = 200 ∨ r.StatusCode = 201 ∨ r.StatusCode = 204 ∨ r.StatusCode = 404
      · simp [h1] at hm; exact hm
      · by_cases h2 : r.StatusCode = 420
        · simp [h1, h2] at hm; exact hm
        · by_cases h3 : r.StatusCode = 429
          · cases hga : goAtoi r.retryAfterHeader with
            | none => simp [h1, h2, h3, hga] at hm; exact hm
            | some n =>
              simp [h1, h2, h3, hga] at hm
              rcases hm with hm | hm
              · exact hm
              · exact ih (attempt + 1) r' hm
          · simp [h1, h2, h3] at hm; exact hm

/-- C1: a 429 response whose `Retry-After` header parses as an integer makes
`doRequest` sleep that many seconds and resend the identical request (every
request handed to the transport in a trace is the one built before the loop,
with its method, URL, headers and replayable body); attempts are bounded at
5, and five consecutive 429 responses yield the max-retries error with zero
successful attempts (the trace holds exactly 5 sends, each followed by the
requested sleep). -/
theorem doRequest_429_retry_bounded :
    (∀ (req : RequestFields) (env : Nat → AttemptResult) (r : HttpResponse)
        (n : Int) (fuel attempt : Nat),
        env attempt = .response r → r.StatusCode = 429 →
        goAtoi r.retryAfterHeader = some n →
        doRequestAux req env (fuel + 1) attempt =
          ((doRequestAux req env fuel (attempt + 1)).1,
            .sent req :: .slept n :: (doRequestAux req env fuel (attempt + 1)).2)) ∧
    (∀ (req : RequestFields) (env : Nat → AttemptResult) (fuel attempt : Nat)
        (r' : RequestFields),
        Event.sent r' ∈ (doRequestAux req env fuel attempt).2 → r' = req) ∧
    (∀ (req : RequestFields) (hdr : String) (n : Int), goAtoi hdr = some n →
        doRequest req (fun _ => .response ⟨429, hdr, .malformed⟩) =
          (.error (.maxRetries req.Method req.url),
            [.sent req, .slept n, .sent req, .slept n, .sent req, .slept n,
             .sent req, .slept n, .sent req, .slept n])) := by
  refine ⟨?_, doRequestAux_sent_all, ?_⟩
  · intro req env r n fuel attempt henv h429 hga
    have h1 : ¬(r.StatusCode = 200 ∨ r.StatusCode = 201 ∨ r.StatusCode = 204 ∨
        r.StatusCode = 404) := by omega
    have h2 : r.StatusCode ≠ 420 := by omega
    simp [doRequestAux, henv, h1, h2, h429, hga]
  · intro req hdr n hga
    simp [doRequest, doRequestAux, hga]

/-- Witness for C1 at `Retry-After: 2`: five sends of the identical request,
each followed by a 2-second sleep, then the max-retries error. -/
theorem doRequest_429_retry_bounded_witness :
    doRequest sampleReq (fun _ => .response ⟨429, "2", .malformed⟩) =
      (.error (.maxRetries "POST" "https://api.trakt.tv/sync/watchlist"),
        [.sent sampleReq, .slept 2, .sent sampleReq, .slept 2, .sent sampleReq,
         .slept 2, .sent sampleReq, .slept 2, .sent sampleReq, .slept 2]) :=
  doRequest_429_retry_bounded.2.2 sampleReq "2" 2 (by decide)

/-- C3: a response with the vendor-specific account-limit status 420 makes
`doRequest` return the terminal account-level-limit-exceeded `ApiError`
without any retry: the trace holds exactly one sent request and no sleep. -/
theorem doRequest_account_limit_terminal (req : RequestFields)
    (env : Nat → AttemptResult) (r : HttpResponse)
    (h : env 0 = .response r) (h420 : r.StatusCode = 420) :
    doRequest req env =
      (.error (.apiError req.Method req.url 420 accountLimitDetails),
        [.sent req]) ∧
    sentCount (doRequest req env).2 = 1 := by
  have h1 : ¬(r.StatusCode = 200 ∨ r.StatusCode = 201 ∨ r.StatusCode = 204 ∨
      r.StatusCode = 404) := by omega
  have heq : doRequest req env =
      (.error (.apiError req.Method req.url 420 accountLimitDetails), [.sent req]) := by
    simp [doRequest, doRequestAux, h, h1, h420]
  exact ⟨heq, by rw [heq]; simp [sentCount]⟩

/-- Witness for C3: a 420 response to the sample request. -/
theorem doRequest_account_limit_terminal_witness :
    doRequest sampleReq (fun _ => .response ⟨420, "", .empty⟩) =
      (.error (.apiError "POST" "https://api.trakt.tv/sync/watchlist" 420
        accountLimitDetails), [.sent sampleReq]) ∧
    sentCount (doRequest sampleReq (fun _ => .response ⟨420, "", .empty⟩)).2 = 1 :=
  doRequest_account_limit_terminal sampleReq _ ⟨420, "", .empty⟩ rfl rfl

/-- C6: `doRequest` classifies 200, 201, 204 and 404 as success, returning the
response to the caller; any other status apart from 420 and 429 yields a
terminal `ApiError` carrying the request method, the URL, the status code and
a message. -/
theorem doRequest_status_classification (req : RequestFields)
    (env : Nat → AttemptResult) (r : HttpResponse) (h : env 0 = .response r) :
    ((r.StatusCode = 200 ∨ r.StatusCode = 201 ∨ r.StatusCode = 204 ∨
        r.StatusCode = 404) →
      doRequest req env = (.ok r, [.sent req])) ∧
    (r.StatusCode ∉ ([200, 201, 204, 404, 420, 429] : List Nat) →
      doRequest req env =
        (.error (.apiError req.Method req.url r.StatusCode
          ("unexpected status code " ++ toString r.StatusCode)), [.sent req])) := by
  constructor
  · intro hs
    exact doRequest_ok_of_success env r h hs req
  · intro hs
    simp only [List.mem_cons, List.mem_singleton, not_or] at hs
    obtain ⟨n200, n201, n204, n404, n420, n429⟩ := hs
    have h1 : ¬(r.StatusCode = 200 ∨ r.StatusCode = 201 ∨ r.StatusCode = 204 ∨
        r.StatusCode = 404) := by tauto
    simp [doRequest, doRequestAux, h, h1, n420, n429]

/-- Witness for C6: a 200 response is returned as success, a 500 response
becomes the generic terminal error. -/
theorem doRequest_status_classification_witness :
    doRequest sampleReq (fun _ => .response ⟨200, "", .empty⟩) =
      (.ok ⟨200, "", .empty⟩, [.sent sampleReq]) ∧
    doRequest sampleReq (fun _ => .response ⟨500, "", .empty⟩) =
      (.error (.apiError "POST" "https://api.trakt.tv/sync/watchlist" 500
        ("unexpected status code " ++ toString (500 : Nat))), [.sent sampleReq]) :=
  ⟨(doRequest_status_classification sampleReq _ ⟨200, "", .empty⟩ rfl).1 (by decide),
   (doRequest_status_classification sampleReq _ ⟨500, "", .empty⟩ rfl).2 (by decide)⟩

/-- C8: a 429 response whose `Retry-After` header does not parse as an integer
(including an absent header, read as the empty string) makes `doRequest` fail
immediately with a parse error naming the header: one request sent, no sleep,
no defaulted wait. -/
theorem doRequest_retry_after_parse_failure (req : RequestFields)
    (env : Nat → AttemptResult) (r : HttpResponse) (h : env 0 = .response r)
    (h429 : r.StatusCode = 429) (hbad : goAtoi r.retryAfterHeader = none) :
    doRequest req env =
      (.error (.headerParse traktHeaderKeyRetryAfter), [.sent req]) := by
  have h1 : ¬(r.StatusCode = 200 ∨ r.StatusCode = 201 ∨ r.StatusCode = 204 ∨
      r.StatusCode = 404) := by omega
  have h2 : r.StatusCode ≠ 420 := by omega
  simp [doRequest, doRequestAux, h, h1, h2, h429, hbad]

/-- Witness for C8: a 429 response with an absent (empty) `Retry-After`
header. -/
theorem doRequest_retry_after_parse_failure_witness :
    doRequest sampleReq (fun _ => .response ⟨429, "", .empty⟩) =
      (.error (.headerParse traktHeaderKeyRetryAfter), [.sent sampleReq]) :=
  doRequest_retry_after_parse_failure sampleReq _ ⟨429, "", .empty⟩ rfl rfl rfl

/-- C7: in `ActivateAuthorize`, an href value that splits on `"/"` into
exactly three segments yields the last (third) segment as the session
username with no error; any other segment count is the hard scraping
error. -/
theorem activateAuthorizeUsername_segments :
    (∀ (v p1 p2 p3 : String), goSplit '/' v = [p1, p2, p3] →
      activateAuthorizeUsername v = .ok p3) ∧
    (∀ v : String, (goSplit '/' v).length ≠ 3 →
      activateAuthorizeUsername v =
        .error (.scrape "failure scraping trakt username")) := by
  constructor
  · intro v p1 p2 p3 hsplit
    simp [activateAuthorizeUsername, hsplit]
  · intro v hlen
    simp [activateAuthorizeUsername, hlen]

/-- Witness for C7: `"/user/cecobask"` splits into three segments and yields
the username `"cecobask"`; `"nopath"` splits into one segment and fails. -/
theorem activateAuthorizeUsername_segments_witness :
    activateAuthorizeUsername "/user/cecobask" = .ok "cecobask" ∧
    activateAuthorizeUsername "nopath" =
      .error (.scrape "failure scraping trakt username") :=
  ⟨activateAuthorizeUsername_segments.1 "/user/cecobask" "" "user" "cecobask"
      (by decide),
   activateAuthorizeUsername_segments.2 "nopath" (by decide)⟩

/-- C9: an item carrying only a Movie identifier maps through the add-body
mapping to exactly one Movie entry (the identifier itself) and zero Show and
Episode entries. -/
theorem mapTraktItems_movie_round_trip (m : TraktItemSpec) :
    mapTraktItemsToTraktBody [.movie m] =
      { Movies := [m], Shows := [], Episodes := [] } := rfl

/-- Items whose tag is one of movie/show/episode, i.e. those the mapping
recognizes. -/
def TraktItem.isRecognized : TraktItem → Bool
  | .unknown _ => false
  | _ => true

lemma mapTraktItemsToTraktBody_filter (items : List TraktItem) :
    mapTraktItemsToTraktBody (items.filter TraktItem.isRecognized) =
      mapTraktItemsToTraktBody items := by
  induction items with
  | nil => rfl
  | cons i rest ih =>
    cases i <;> simp [mapTraktItemsToTraktBody, TraktItem.isRecognized,
      List.filter, ih]

lemma mapTraktItemsToTraktBody_total_length (items : List TraktItem) :
    (mapTraktItemsToTraktBody items).Movies.length +
      (mapTraktItemsToTraktBody items).Shows.length +
      (mapTraktItemsToTraktBody items).Episodes.length =
      (items.filter TraktItem.isRecognized).length := by
  induction items with
  | nil => rfl
  | cons i rest ih =>
    cases i <;> simp [mapTraktItemsToTraktBody, TraktItem.isRecognized,
      List.filter] <;> omega

/-- C4: when the single-list endpoint answers 404, `ListGet` returns a typed
not-found `ApiError` whose details carry the requested identifier; the error
satisfies the not-found test used by callers, and the generic terminal-error
path of `doRequest` can never produce an `ApiError` with status 404 (404 is a
success for the engine), so the two are distinguishable. -/
theorem listGet_not_found_typed (cfg : TraktConfig) (listId : String)
    (env : Nat → AttemptResult) (r : HttpResponse)
    (h : env 0 = .response r) (h404 : r.StatusCode = 404) :
    (ListGet cfg listId env).1 =
      .error (.apiError "GET"
        (traktPathBaseAPI ++ traktPathUserListItemsFmt cfg.username listId) 404
        ("list with id " ++ listId ++ " could not be found")) ∧
    (ClientError.apiError "GET"
        (traktPathBaseAPI ++ traktPathUserListItemsFmt cfg.username listId) 404
        ("list with id " ++ listId ++ " could not be found")).isNotFoundApiError
      = true ∧
    (∀ (req : RequestFields) (env2 : Nat → AttemptResult) (m u d : String),
      (doRequest req env2).1 ≠ .error (.apiError m u 404 d)) := by
  refine ⟨?_, rfl, fun req env2 m u d => doRequestAux_no_404_apiError req env2 5 0 m u d⟩
  have hok := doRequest_ok_of_success env r h (by omega)
    { Method := "GET", BasePath := traktPathBaseAPI,
      Endpoint := traktPathUserListItemsFmt cfg.username listId,
      Body := .noBody, Headers := defaultApiHeaders cfg }
  simp [ListGet, hok, h404, RequestFields.url]

/-- Witness for C4: a 404 answer for list `"mylist"`. -/
theorem listGet_not_found_typed_witness :
    (ListGet
        { accessToken := "tok", ClientId := "cid", ClientSecret := "sec",
          Email := "e", Password := "p", username := "user",
          SyncMode := "full" }
        "mylist" (fun _ => .response ⟨404, "", .empty⟩)).1 =
      .error (.apiError "GET"
        (traktPathBaseAPI ++ traktPathUserListItemsFmt "user" "mylist") 404
        ("list with id " ++ "mylist" ++ " could not be found")) :=
  (listGet_not_found_typed
    { accessToken := "tok", ClientId := "cid", ClientSecret := "sec",
      Email := "e", Password := "p", username := "user", SyncMode := "full" }
    "mylist" _ ⟨404, "", .empty⟩ rfl rfl).1

/-- C10: items whose type tag is none of movie/show/episode are silently
dropped by the mapping — the body equals the body of the recognized items
alone, and the total number of output entries equals the number of input
items carrying a recognized tag. -/
theorem mapTraktItems_drops_unrecognized (items : List TraktItem) :
    mapTraktItemsToTraktBody items =
      mapTraktItemsToTraktBody (items.filter TraktItem.isRecognized) ∧
    (mapTraktItemsToTraktBody items).Movies.length +
      (mapTraktItemsToTraktBody items).Shows.length +
      (mapTraktItemsToTraktBody items).Episodes.length =
      (items.filter TraktItem.isRecognized).length :=
  ⟨(mapTraktItemsToTraktBody_filter items).symm,
   mapTraktItemsToTraktBody_total_length items⟩

/-- C2: for every operating mode, remove operations in add-only or dry-run
mode send zero network requests and return no error; add operations in
dry-run mode send zero network requests and return no error; every other
mode/mutating-operation combination sends exactly one network request (the
transport oracle answering the first attempt with a success status); and
get operations always execute — one request — regardless of mode. -/
theorem syncOps_mode_gating (cfg : TraktConfig) (items : List TraktItem)
    (listId listName itemType itemId : String) (env : Nat → AttemptResult)
    (r : HttpResponse) (henv : env 0 = .response r)
    (hsucc : r.StatusCode = 200 ∨ r.StatusCode = 201 ∨ r.StatusCode = 204 ∨
      r.StatusCode = 404) :
    ((cfg.SyncMode = traktSyncModeAddOnly ∨ cfg.SyncMode = traktSyncModeDryRun) →
      WatchlistItemsRemove cfg items env = (.ok (), []) ∧
      ListItemsRemove cfg listId items env = (.ok (), []) ∧
      ListRemove cfg listId env = (.ok (), []) ∧
      RatingsRemove cfg items env = (.ok (), []) ∧
      HistoryRemove cfg items env = (.ok (), [])) ∧
    (cfg.SyncMode = traktSyncModeDryRun →
      WatchlistItemsAdd cfg items env = (.ok (), []) ∧
      ListItemsAdd cfg listId items env = (.ok (), []) ∧
      ListAdd cfg listId listName env = (.ok (), []) ∧
      RatingsAdd cfg items env = (.ok (), []) ∧
      HistoryAdd cfg items env = (.ok (), [])) ∧
    (cfg.SyncMode = traktSyncModeFull →
      sentCount (WatchlistItemsRemove cfg items env).2 = 1 ∧
      sentCount (ListItemsRemove cfg listId items env).2 = 1 ∧
      sentCount (ListRemove cfg listId env).2 = 1 ∧
      sentCount (RatingsRemove cfg items env).2 = 1 ∧
      sentCount (HistoryRemove cfg items env).2 = 1) ∧
    ((cfg.SyncMode = traktSyncModeFull ∨ cfg.SyncMode = traktSyncModeAddOnly) →
      sentCount (WatchlistItemsAdd cfg items env).2 = 1 ∧
      sentCount (ListItemsAdd cfg listId items env).2 = 1 ∧
      sentCount (ListAdd cfg listId listName env).2 = 1 ∧
      sentCount (RatingsAdd cfg items env).2 = 1 ∧
      sentCount (HistoryAdd cfg items env).2 = 1) ∧
    (sentCount (WatchlistGet cfg env).2 = 1 ∧
      sentCount (ListGet cfg listId env).2 = 1 ∧
      sentCount (ListsMetadataGet cfg env).2 = 1 ∧
      sentCount (RatingsGet cfg env).2 = 1 ∧
      sentCount (HistoryGet cfg itemType itemId env).2 = 1) := by
  have hok := doRequest_ok_of_success env r henv hsucc
  refine ⟨?_, ?_, ?_, ?_, ?_⟩
  · rintro (hm | hm) <;>
      refine ⟨?_, ?_, ?_, ?_, ?_⟩ <;>
      simp [WatchlistItemsRemove, ListItemsRemove, ListRemove, RatingsRemove,
        HistoryRemove, hm, traktSyncModeAddOnly, traktSyncModeDryRun]
  · intro hm
    refine ⟨?_, ?_, ?_, ?_, ?_⟩ <;>
      simp [WatchlistItemsAdd, ListItemsAdd, ListAdd, RatingsAdd, HistoryAdd,
        hm, traktSyncModeDryRun]
  · intro hm
    have hnd : ¬(cfg.SyncMode = traktSyncModeDryRun ∨
        cfg.SyncMode = traktSyncModeAddOnly) := by
      rw [hm]; decide
    refine ⟨?_, ?_, ?_, ?_, ?_⟩ <;>
      simp only [WatchlistItemsRemove, ListItemsRemove, ListRemove,
        RatingsRemove, HistoryRemove, hnd, if_false, hok] <;>
      (cases readTraktResponse r.Body <;> simp [sentCount])
  · intro hm
    have hnd : cfg.SyncMode ≠ traktSyncModeDryRun := by
      rcases hm with hm | hm <;> rw [hm] <;> decide
    refine ⟨?_, ?_, ?_, ?_, ?_⟩ <;>
      simp only [WatchlistItemsAdd, ListItemsAdd, ListAdd, RatingsAdd,
        HistoryAdd, hnd, if_false, hok] <;>
      (cases readTraktResponse r.Body <;> simp [sentCount])
  · refine ⟨?_, ?_, ?_, ?_, ?_⟩ <;>
      simp only [WatchlistGet, ListGet, ListsMetadataGet, RatingsGet,
        HistoryGet, hok] <;>
      (by_cases h4 : r.StatusCode = 404 <;> simp [h4, sentCount])

/-- A sample client configuration in full mode. -/
def cfgFull : TraktConfig :=
  { accessToken := "tok", ClientId := "cid", ClientSecret := "sec",
    Email := "e", Password := "p", username := "user", SyncMode := "full" }

/-- The sample configuration switched to add-only mode. -/
def cfgAddOnly : TraktConfig := { cfgFull with SyncMode := "add-only" }

/-- The sample configuration switched to dry-run mode. -/
def cfgDryRun : TraktConfig := { cfgFull with SyncMode := "dry-run" }

/-- A transport oracle answering every attempt with a decodable 200. -/
def envOK : Nat → AttemptResult :=
  fun _ => .response ⟨200, "", .syncResult ⟨0, 0, 0, 0⟩⟩

/-- Witness for C2: a remove in add-only mode and an add in dry-run mode send
nothing and succeed; a remove in full mode, an add in add-only mode, and a
get in dry-run mode each send exactly one request. -/
theorem syncOps_mode_gating_witness :
    WatchlistItemsRemove cfgAddOnly [] envOK = (.ok (), []) ∧
    HistoryAdd cfgDryRun [] envOK = (.ok (), []) ∧
    sentCount (WatchlistItemsRemove cfgFull [] envOK).2 = 1 ∧
    sentCount (HistoryAdd cfgAddOnly [] envOK).2 = 1 ∧
    sentCount (WatchlistGet cfgDryRun envOK).2 = 1 :=
  ⟨((syncOps_mode_gating cfgAddOnly [] "l" "n" "movie" "id" envOK
      ⟨200, "", .syncResult ⟨0, 0, 0, 0⟩⟩ rfl (by decide)).1 (Or.inl rfl)).1,
   ((syncOps_mode_gating cfgDryRun [] "l" "n" "movie" "id" envOK
      ⟨200, "", .syncResult ⟨0, 0, 0, 0⟩⟩ rfl (by decide)).2.1 rfl).2.2.2.2,
   ((syncOps_mode_gating cfgFull [] "l" "n" "movie" "id" envOK
      ⟨200, "", .syncResult ⟨0, 0, 0, 0⟩⟩ rfl (by decide)).2.2.1 rfl).1,
   ((syncOps_mode_gating cfgAddOnly [] "l" "n" "movie" "id" envOK
      ⟨200, "", .syncResult ⟨0, 0, 0, 0⟩⟩ rfl (by decide)).2.2.2.1
      (Or.inr rfl)).2.2.2.2,
   (syncOps_mode_gating cfgDryRun [] "l" "n" "movie" "id" envOK
      ⟨200, "", .syncResult ⟨0, 0, 0, 0⟩⟩ rfl (by decide)).2.2.2.2.1⟩

/-- A per-identifier transport oracle: slug `"b"` answers 404, slug `"c"`
fails at the transport level, anything else answers 200 with an empty item
list. -/
def envByList : TraktIds → Nat → AttemptResult := fun id _ =>
  if id.Slug = "b" then .response ⟨404, "", .empty⟩
  else if id.Slug = "c" then .transportError "connection reset"
  else .response ⟨200, "", .listItems []⟩

/-- C5: the claimed outcomes are reachable but not guaranteed — the `select`
race loses buffered data.  With identifiers `["a", "b"]` where `"b"` answers
404, the fan-in can return the claimed N−1 = 1 lists with no error, but the
closed `doneChan` can also win the `select` over the list still buffered in
`outChan`, returning 0 lists and no error.  With `["a", "c"]` where `"c"`
fails at the transport level, the claimed zero-lists-plus-that-error outcome
is reachable, but the `select` can also drain the list and then take the
`doneChan` case, returning one list and no error — the buffered error is
lost. -/
theorem listsGet_select_race :
    ListsGetCanReturn cfgFull envByList [⟨"a"⟩, ⟨"b"⟩]
      (.ok [{ Ids := ⟨"a"⟩, IsWatchlist := false, ListItems := [] }]) ∧
    ListsGetCanReturn cfgFull envByList [⟨"a"⟩, ⟨"b"⟩] (.ok []) ∧
    ListsGetCanReturn cfgFull envByList [⟨"a"⟩, ⟨"c"⟩]
      (.error (.wrapped "unexpected error while fetching trakt lists"
        (.transport "GET"
          (traktPathBaseAPI ++ traktPathUserListItemsFmt "user" "c")
          "connection reset"))) ∧
    ListsGetCanReturn cfgFull envByList [⟨"a"⟩, ⟨"c"⟩]
      (.ok [{ Ids := ⟨"a"⟩, IsWatchlist := false, ListItems := [] }]) :=
  ⟨⟨[.recvList, .recvDone], rfl⟩, ⟨[.recvDone], rfl⟩,
   ⟨[.recvErr], rfl⟩, ⟨[.recvList, .recvDone], rfl⟩⟩

end TraktClient
